import Mathlib

/-!
Shallow embedding of `src/pharma_SCM.py`, a turn-based pharmaceutical
supply-chain simulation.  The mutable Streamlit session state becomes an
explicit `SimState` record; the two button handlers become pure state
transformers:

* `tick` embeds the "Next Week" handler (history snapshot, week advance,
  random event, demand drift, KPI recording, sales settlement);
* `executeDecisions` embeds the "Execute Decisions" handler (two
  conversions plus a purchase, guarded by a single affordability check).

Python integers are `Int`; Python float quantities that the code stores
(the OTIF fill rate and the inventory-turnover KPI) are `ℚ`.  Python's
`int(x)` applied to a product such as `raw_to_api * 0.8` truncates toward
zero; at the magnitudes the simulation manipulates the double-precision
product rounds to the exact rational value, so it is embedded as exact
rational multiplication followed by truncation toward zero (`pyInt`).
The nondeterminism of `random` is made explicit: the tick takes the
sampled event (or none) and the uniform demand-drift factor as arguments.
-/

namespace PharmaSim

/-- Python `int(_)` on a rational value: truncation toward zero
(floor for nonnegative arguments, ceiling for negative ones). -/
def pyInt (q : ℚ) : Int := if 0 ≤ q then ⌊q⌋ else ⌈q⌉

/-- The five disruption kinds of the "Random events" block
(`possible_events`, lines 56-62). -/
inductive Event where
  | regulatoryChange
  | demandSpike
  | rawMaterialShortage
  | qualityIssue
  | coldChainFailure
deriving DecidableEq, Repr

/-- One entry of `st.session_state.history` (lines 44-49): week, money,
a copy of the inventory mapping, and demand, recorded before the tick's
effects are applied. -/
structure Snapshot where
  week : Int
  money : Int
  raw_materials : Int
  api : Int
  finished_products : Int
  demand : Int
deriving DecidableEq, Repr

/-- The whole Streamlit session state relevant to the simulation:
week counter, funds, the three inventory quantities, current demand,
the event log (modelled as (week, event) pairs standing for the logged
strings), the four parallel KPI sequences, and the history sequence. -/
structure SimState where
  week : Int
  money : Int
  raw_materials : Int
  api : Int
  finished_products : Int
  demand : Int
  events : List (Int × Event)
  kpi_inventory_turnover : List ℚ
  kpi_otif : List ℚ
  kpi_costs : List Int
  kpi_revenue : List Int
  history : List Snapshot
deriving DecidableEq

/-- The fixed initial state (lines 19-36): week 1, funds 1,000,000,
raw 5000, api 3000, finished 2000, demand 500, empty logs. -/
def initState : SimState :=
  { week := 1
    money := 1000000
    raw_materials := 5000
    api := 3000
    finished_products := 2000
    demand := 500
    events := []
    kpi_inventory_turnover := []
    kpi_otif := []
    kpi_costs := []
    kpi_revenue := []
    history := [] }

/-- The record appended to history at the start of a tick (lines 44-49). -/
def snapshotOf (s : SimState) : Snapshot :=
  { week := s.week
    money := s.money
    raw_materials := s.raw_materials
    api := s.api
    finished_products := s.finished_products
    demand := s.demand }

/-- Lines 44-52 of the "Next Week" handler: append the pre-tick snapshot
to history, then advance the week counter. -/
def startWeek (s : SimState) : SimState :=
  { s with history := s.history ++ [snapshotOf s], week := s.week + 1 }

/-- Lines 63-74: log the sampled event (with the already-incremented
week number) and apply its numeric effect.  `DemandSpike` multiplies
demand by 1.3, `RawMaterialShortage` debits funds by 25% of the
raw-material quantity, `QualityIssue` keeps 90% of finished products,
`ColdChainFailure` keeps 95%; `RegulatoryChange` only logs. -/
def applyEvent (e : Event) (s : SimState) : SimState :=
  let s0 := { s with events := s.events ++ [(s.week, e)] }
  match e with
  | .regulatoryChange => s0
  | .demandSpike =>
      { s0 with demand := pyInt ((s0.demand : ℚ) * (13 / 10)) }
  | .rawMaterialShortage =>
      { s0 with money := s0.money - pyInt ((s0.raw_materials : ℚ) * (1 / 4)) }
  | .qualityIssue =>
      { s0 with finished_products := pyInt ((s0.finished_products : ℚ) * (9 / 10)) }
  | .coldChainFailure =>
      { s0 with finished_products := pyInt ((s0.finished_products : ℚ) * (95 / 100)) }

/-- Line 55: with probability 0.3 one uniformly chosen event occurs,
otherwise none; the sampled outcome is passed in explicitly. -/
def applyEventOpt : Option Event → SimState → SimState
  | none, s => s
  | some e, s => applyEvent e s

/-- Line 77: natural demand variation, `demand = int(demand * u)` with
`u` drawn uniformly from [0.9, 1.1]; the drawn factor is explicit. -/
def driftDemand (u : ℚ) (s : SimState) : SimState :=
  { s with demand := pyInt ((s.demand : ℚ) * u) }

/-- Lines 80-98: KPI computation and sales settlement.
`total_inventory_value` is priced on the current (pre-settlement)
inventory; `sold_products = min(finished_products, demand)`;
`otif = sold/demand` when demand > 0, else 1; the turnover sample
divides by `finished_products + 0.1` before the settlement decrement;
revenue is `sold * 300`, credited to funds, and finally
`finished_products -= sold`. -/
def settle (s : SimState) : SimState :=
  let total_inventory_value :=
    s.raw_materials * 10 + s.api * 50 + s.finished_products * 200
  let sold_products := min s.finished_products s.demand
  let otif : ℚ :=
    if 0 < s.demand then (sold_products : ℚ) / (s.demand : ℚ) else 1
  let revenue := sold_products * 300
  { s with
    kpi_inventory_turnover := s.kpi_inventory_turnover ++
      [(sold_products : ℚ) / ((s.finished_products : ℚ) + 1 / 10)]
    kpi_otif := s.kpi_otif ++ [otif]
    kpi_costs := s.kpi_costs ++ [total_inventory_value]
    kpi_revenue := s.kpi_revenue ++ [revenue]
    money := s.money + revenue
    finished_products := s.finished_products - sold_products }

/-- The first phase of the "Next Week" handler (lines 44-77): history
snapshot and week advance, then the sampled event, then demand drift.
This is the state the KPI/settlement block (lines 80-98) runs on. -/
def preSettle (ev : Option Event) (u : ℚ) (s : SimState) : SimState :=
  driftDemand u (applyEventOpt ev (startWeek s))

/-- The whole "Next Week" handler (lines 42-98), parameterised by the
sampled event and the demand-drift factor. -/
def tick (ev : Option Event) (u : ℚ) (s : SimState) : SimState :=
  settle (preSettle ev u s)

/-- The caller-submitted decision batch (sliders, lines 126-131). -/
structure Decisions where
  raw_to_api : Int
  api_to_finished : Int
  raw_materials_to_buy : Int
deriving DecidableEq, Repr

/-- The "Execute Decisions" handler (lines 133-150).  A single guard
checks `raw_materials_to_buy * 10 <= money`; when it passes, the
raw→API conversion (80% efficiency), then the API→finished conversion
(90% efficiency), then the purchase are applied in order and the handler
reports success (`true`); otherwise nothing is mutated and it reports
the insufficient-funds error (`false`). -/
def executeDecisions (d : Decisions) (s : SimState) : SimState × Bool :=
  let raw_material_cost := d.raw_materials_to_buy * 10
  if raw_material_cost ≤ s.money then
    let s1 := { s with raw_materials := s.raw_materials - d.raw_to_api }
    let s2 := { s1 with api := s1.api + pyInt ((d.raw_to_api : ℚ) * (8 / 10)) }
    let s3 := { s2 with api := s2.api - d.api_to_finished }
    let s4 := { s3 with finished_products :=
      s3.finished_products + pyInt ((d.api_to_finished : ℚ) * (9 / 10)) }
    let s5 := { s4 with raw_materials := s4.raw_materials + d.raw_materials_to_buy }
    let s6 := { s5 with money := s5.money - raw_material_cost }
    (s6, true)
  else
    (s, false)

/-- The "Reset Simulation" handler (lines 101-103): drop everything and
rebuild the fixed initial state. -/
def resetSim (_ : SimState) : SimState := initState

/-- The dashboard's bounds on a decision batch: the two conversion
sliders range from 0 to the current stock of their source good
(lines 126-127) and the purchase slider from 0 to 5000 (line 131). -/
def sliderBounded (s : SimState) (d : Decisions) : Prop :=
  0 ≤ d.raw_to_api ∧ d.raw_to_api ≤ s.raw_materials ∧
  0 ≤ d.api_to_finished ∧ d.api_to_finished ≤ s.api ∧
  0 ≤ d.raw_materials_to_buy ∧ d.raw_materials_to_buy ≤ 5000

/-- States reachable from the initial state by any sequence of weekly
ticks (with any sampled event and any drift factor in [0.9, 1.1]),
decision-batch executions whose inputs respect the slider bounds, and
resets. -/
inductive Reachable : SimState → Prop where
  | init : Reachable initState
  | next_week (ev : Option Event) (u : ℚ) (s : SimState) :
      Reachable s → 9 / 10 ≤ u → u ≤ 11 / 10 → Reachable (tick ev u s)
  | execute (d : Decisions) (s : SimState) :
      Reachable s → sliderBounded s d → Reachable (executeDecisions d s).1
  | reset (s : SimState) : Reachable s → Reachable (resetSim s)

/-- The quantity invariant: the three inventory quantities and the
demand are nonnegative. -/
def Inv (s : SimState) : Prop :=
  0 ≤ s.raw_materials ∧ 0 ≤ s.api ∧ 0 ≤ s.finished_products ∧ 0 ≤ s.demand

lemma pyInt_nonneg {q : ℚ} (h : 0 ≤ q) : 0 ≤ pyInt q := by
  rw [pyInt, if_pos h]
  exact Int.floor_nonneg.mpr h

lemma pyInt_mul_nonneg {x : Int} {c : ℚ} (hx : 0 ≤ x) (hc : 0 ≤ c) :
    0 ≤ pyInt ((x : ℚ) * c) :=
  pyInt_nonneg (mul_nonneg (by exact_mod_cast hx) hc)

lemma inv_startWeek {s : SimState} (h : Inv s) : Inv (startWeek s) := h

lemma inv_applyEventOpt {s : SimState} (ev : Option Event) (h : Inv s) :
    Inv (applyEventOpt ev s) := by
  obtain ⟨hr, ha, hf, hd⟩ := h
  cases ev with
  | none => exact ⟨hr, ha, hf, hd⟩
  | some e =>
      cases e <;>
        refine ⟨?_, ?_, ?_, ?_⟩ <;>
          first
            | exact hr
            | exact ha
            | exact hf
            | exact hd
            | exact pyInt_mul_nonneg hd (by norm_num)
            | exact pyInt_mul_nonneg hf (by norm_num)

lemma inv_driftDemand {s : SimState} {u : ℚ} (hu : 9 / 10 ≤ u) (h : Inv s) :
    Inv (driftDemand u s) :=
  ⟨h.1, h.2.1, h.2.2.1, pyInt_mul_nonneg h.2.2.2 (by linarith)⟩

lemma inv_settle {s : SimState} (h : Inv s) : Inv (settle s) := by
  obtain ⟨hr, ha, hf, hd⟩ := h
  refine ⟨hr, ha, ?_, hd⟩
  have : min s.finished_products s.demand ≤ s.finished_products :=
    min_le_left _ _
  simp only [settle]
  omega

lemma inv_executeDecisions {s : SimState} {d : Decisions}
    (hb : sliderBounded s d) (h : Inv s) : Inv (executeDecisions d s).1 := by
  obtain ⟨hr, ha, hf, hd⟩ := h
  obtain ⟨h1, h2, h3, h4, h5, h6⟩ := hb
  have hpa : 0 ≤ pyInt ((d.raw_to_api : ℚ) * (8 / 10)) :=
    pyInt_mul_nonneg h1 (by norm_num)
  have hpf : 0 ≤ pyInt ((d.api_to_finished : ℚ) * (9 / 10)) :=
    pyInt_mul_nonneg h3 (by norm_num)
  unfold executeDecisions
  dsimp only
  split
  · refine ⟨?_, ?_, ?_, hd⟩ <;> dsimp only <;> omega
  · exact ⟨hr, ha, hf, hd⟩

lemma inv_initState : Inv initState := by
  refine ⟨?_, ?_, ?_, ?_⟩ <;> decide

lemma reachable_inv {s : SimState} (h : Reachable s) : Inv s := by
  induction h with
  | init => exact inv_initState
  | next_week ev u s _ hu _ ih =>
      exact inv_settle (inv_driftDemand hu (inv_applyEventOpt ev (inv_startWeek ih)))
  | execute d s _ hb ih => exact inv_executeDecisions hb ih
  | reset s _ _ => exact inv_initState

/-- C2: in every reachable state (any sequence of ticks, decision-batch
executions within the slider bounds, and resets) all three inventory
quantities are nonnegative. -/
theorem inventory_nonneg (s : SimState) (h : Reachable s) :
    0 ≤ s.raw_materials ∧ 0 ≤ s.api ∧ 0 ≤ s.finished_products :=
  ⟨(reachable_inv h).1, (reachable_inv h).2.1, (reachable_inv h).2.2.1⟩

/-- C2 witness: the invariant instantiated at a concrete reachable
state, one tick (quality-issue event, drift factor 1) after start. -/
theorem inventory_nonneg_witness :
    0 ≤ (tick (some .qualityIssue) 1 initState).raw_materials ∧
    0 ≤ (tick (some .qualityIssue) 1 initState).api ∧
    0 ≤ (tick (some .qualityIssue) 1 initState).finished_products :=
  inventory_nonneg _
    (Reachable.next_week (some .qualityIssue) 1 initState Reachable.init
      (by norm_num) (by norm_num))

/-- C1: a decision batch whose purchase cost exceeds the available funds
is rejected whole — the state is returned unchanged (no conversion, no
purchase) together with the insufficient-funds error flag. -/
theorem unaffordable_batch_rejected (d : Decisions) (s : SimState)
    (h : s.money < d.raw_materials_to_buy * 10) :
    executeDecisions d s = (s, false) := by
  unfold executeDecisions
  rw [if_neg (by omega)]

/-- C1 witness: with funds = 500 a batch buying 100 raw materials
(cost 1000) changes nothing and fails. -/
theorem unaffordable_batch_rejected_witness :
    executeDecisions ⟨100, 50, 100⟩ { initState with money := 500 } =
      ({ initState with money := 500 }, false) :=
  unaffordable_batch_rejected ⟨100, 50, 100⟩ { initState with money := 500 }
    (by decide)

lemma executeDecisions_pos (d : Decisions) (s : SimState)
    (h : d.raw_materials_to_buy * 10 ≤ s.money) :
    executeDecisions d s =
      ({ s with
          raw_materials := s.raw_materials - d.raw_to_api + d.raw_materials_to_buy
          api := s.api + pyInt ((d.raw_to_api : ℚ) * (8 / 10)) - d.api_to_finished
          finished_products :=
            s.finished_products + pyInt ((d.api_to_finished : ℚ) * (9 / 10))
          money := s.money - d.raw_materials_to_buy * 10 }, true) := by
  unfold executeDecisions
  dsimp only
  rw [if_pos h]

/-- C3 counterexample: the engine does not validate availability — the
batch converting 6000 raw materials out of a stock of 5000 passes the
affordability guard, reports success, and drives raw materials to
-1000. -/
theorem invalid_batch_not_rejected :
    (executeDecisions ⟨6000, 0, 0⟩ initState).2 = true ∧
    (executeDecisions ⟨6000, 0, 0⟩ initState).1.raw_materials = -1000 := by
  constructor <;> decide

/-- C3 amended: the engine's only check is purchase affordability; any
batch whose purchase cost fits the funds is applied in full — both
conversions and the purchase — regardless of whether the amounts are
negative or exceed the available stock of their source good.  Bounds on
the amounts come solely from the dashboard sliders. -/
theorem engine_checks_only_affordability (d : Decisions) (s : SimState)
    (h : d.raw_materials_to_buy * 10 ≤ s.money) :
    (executeDecisions d s).2 = true ∧
    (executeDecisions d s).1.raw_materials =
      s.raw_materials - d.raw_to_api + d.raw_materials_to_buy ∧
    (executeDecisions d s).1.api =
      s.api + pyInt ((d.raw_to_api : ℚ) * (8 / 10)) - d.api_to_finished ∧
    (executeDecisions d s).1.finished_products =
      s.finished_products + pyInt ((d.api_to_finished : ℚ) * (9 / 10)) ∧
    (executeDecisions d s).1.money = s.money - d.raw_materials_to_buy * 10 := by
  rw [executeDecisions_pos d s h]
  exact ⟨rfl, rfl, rfl, rfl, rfl⟩

/-- C3 amended witness: the over-stock batch of the counterexample is
applied (success flag true), by the amended theorem. -/
theorem engine_checks_only_affordability_witness :
    (executeDecisions ⟨6000, 0, 0⟩ initState).2 = true :=
  (engine_checks_only_affordability ⟨6000, 0, 0⟩ initState (by decide)).1

/-- C9: inside a successful batch the raw→API conversion lands before
the API→finished conversion is subtracted, so the resulting API stock is
`api + ⌊raw_to_api * 0.8⌋ - api_to_finished`; it is nonnegative whenever
`api_to_finished` does not exceed the pre-batch API stock. -/
theorem batch_conversion_order (d : Decisions) (s : SimState)
    (hm : d.raw_materials_to_buy * 10 ≤ s.money)
    (hr : 0 ≤ d.raw_to_api) (ha : d.api_to_finished ≤ s.api) :
    (executeDecisions d s).1.api =
      s.api + pyInt ((d.raw_to_api : ℚ) * (8 / 10)) - d.api_to_finished ∧
    0 ≤ (executeDecisions d s).1.api := by
  rw [executeDecisions_pos d s hm]
  refine ⟨rfl, ?_⟩
  have := pyInt_mul_nonneg hr (show (0 : ℚ) ≤ 8 / 10 by norm_num)
  dsimp only
  omega

/-- C9 witness: converting 100 raw and 50 API on the initial state gives
API stock 3000 + 80 - 50 = 3030 ≥ 0. -/
theorem batch_conversion_order_witness :
    (executeDecisions ⟨100, 50, 0⟩ initState).1.api =
      initState.api + pyInt (((100 : Int) : ℚ) * (8 / 10)) - 50 ∧
    0 ≤ (executeDecisions ⟨100, 50, 0⟩ initState).1.api :=
  batch_conversion_order ⟨100, 50, 0⟩ initState (by decide) (by decide) (by decide)

/-- C10: executing a decision batch touches only the inventory
quantities and the funds — week, demand, the event log, the four KPI
sequences and the history sequence are returned unchanged. -/
theorem execute_decisions_frame (d : Decisions) (s : SimState) :
    (executeDecisions d s).1.week = s.week ∧
    (executeDecisions d s).1.demand = s.demand ∧
    (executeDecisions d s).1.events = s.events ∧
    (executeDecisions d s).1.kpi_inventory_turnover = s.kpi_inventory_turnover ∧
    (executeDecisions d s).1.kpi_otif = s.kpi_otif ∧
    (executeDecisions d s).1.kpi_costs = s.kpi_costs ∧
    (executeDecisions d s).1.kpi_revenue = s.kpi_revenue ∧
    (executeDecisions d s).1.history = s.history := by
  unfold executeDecisions
  dsimp only
  split <;> exact ⟨rfl, rfl, rfl, rfl, rfl, rfl, rfl, rfl⟩

lemma settle_kpi_otif (s : SimState) :
    (settle s).kpi_otif = s.kpi_otif ++
      [if 0 < s.demand then
          ((min s.finished_products s.demand : Int) : ℚ) / (s.demand : ℚ)
        else 1] := rfl

lemma settle_kpi_turnover (s : SimState) :
    (settle s).kpi_inventory_turnover = s.kpi_inventory_turnover ++
      [((min s.finished_products s.demand : Int) : ℚ) /
        ((s.finished_products : ℚ) + 1 / 10)] := rfl

lemma settle_kpi_costs (s : SimState) :
    (settle s).kpi_costs = s.kpi_costs ++
      [s.raw_materials * 10 + s.api * 50 + s.finished_products * 200] := rfl

lemma settle_kpi_revenue (s : SimState) :
    (settle s).kpi_revenue = s.kpi_revenue ++
      [min s.finished_products s.demand * 300] := rfl

lemma settle_money (s : SimState) :
    (settle s).money = s.money + min s.finished_products s.demand * 300 := rfl

lemma settle_finished (s : SimState) :
    (settle s).finished_products =
      s.finished_products - min s.finished_products s.demand := rfl

lemma settle_demand (s : SimState) : (settle s).demand = s.demand := rfl

lemma applyEventOpt_kpis (ev : Option Event) (s : SimState) :
    (applyEventOpt ev s).kpi_inventory_turnover = s.kpi_inventory_turnover ∧
    (applyEventOpt ev s).kpi_otif = s.kpi_otif ∧
    (applyEventOpt ev s).kpi_costs = s.kpi_costs ∧
    (applyEventOpt ev s).kpi_revenue = s.kpi_revenue := by
  cases ev with
  | none => exact ⟨rfl, rfl, rfl, rfl⟩
  | some e => cases e <;> exact ⟨rfl, rfl, rfl, rfl⟩

lemma preSettle_kpis (ev : Option Event) (u : ℚ) (s : SimState) :
    (preSettle ev u s).kpi_inventory_turnover = s.kpi_inventory_turnover ∧
    (preSettle ev u s).kpi_otif = s.kpi_otif ∧
    (preSettle ev u s).kpi_costs = s.kpi_costs ∧
    (preSettle ev u s).kpi_revenue = s.kpi_revenue :=
  applyEventOpt_kpis ev (startWeek s)

lemma inv_preSettle {s : SimState} (ev : Option Event) {u : ℚ}
    (hu : 9 / 10 ≤ u) (h : Inv s) : Inv (preSettle ev u s) :=
  inv_driftDemand hu (inv_applyEventOpt ev (inv_startWeek h))

/-- C4: each tick appends one fill-rate (OTIF) sample; for every
reachable state and admissible drift factor the sample lies in [0, 1],
and it equals 1 exactly when the tick's demand is 0 (zero demand counts
as fully served, with no division error). -/
theorem fill_rate_bounds (ev : Option Event) (u : ℚ) (s : SimState)
    (hs : Reachable s) (hu1 : 9 / 10 ≤ u) (hu2 : u ≤ 11 / 10) :
    ∃ o : ℚ, (tick ev u s).kpi_otif = s.kpi_otif ++ [o] ∧
      0 ≤ o ∧ o ≤ 1 ∧ ((tick ev u s).demand = 0 → o = 1) := by
  have hInv : Inv (preSettle ev u s) := inv_preSettle ev hu1 (reachable_inv hs)
  have hfp : 0 ≤ (preSettle ev u s).finished_products := hInv.2.2.1
  refine ⟨if 0 < (preSettle ev u s).demand then
      ((min (preSettle ev u s).finished_products
          (preSettle ev u s).demand : Int) : ℚ) /
        ((preSettle ev u s).demand : ℚ)
    else 1, ?_, ?_, ?_, ?_⟩
  · show (settle (preSettle ev u s)).kpi_otif = _
    rw [settle_kpi_otif, (preSettle_kpis ev u s).2.1]
  · split
    · apply div_nonneg _ (by positivity)
      have : (0 : Int) ≤ min (preSettle ev u s).finished_products
          (preSettle ev u s).demand := le_min hfp (by omega)
      exact_mod_cast this
    · norm_num
  · split
    · rename_i hpos
      rw [div_le_one (by exact_mod_cast hpos)]
      exact_mod_cast min_le_right (preSettle ev u s).finished_products
        (preSettle ev u s).demand
    · norm_num
  · intro hz
    rw [show (tick ev u s).demand = (preSettle ev u s).demand from
      settle_demand _] at hz
    rw [if_neg (by omega)]

/-- C4 witness: the fill-rate sample of a tick from the initial state
(no event, drift factor 1). -/
theorem fill_rate_bounds_witness :
    ∃ o : ℚ, (tick none 1 initState).kpi_otif = initState.kpi_otif ++ [o] ∧
      0 ≤ o ∧ o ≤ 1 ∧ ((tick none 1 initState).demand = 0 → o = 1) :=
  fill_rate_bounds none 1 initState Reachable.init (by norm_num) (by norm_num)

/-- C5: sales settlement computes `sold = min(finished_products,
demand)` and `revenue = sold * 300`, decrements finished products by
`sold`, credits funds by `revenue`, and runs exactly once per tick,
unconditionally (every tick appends exactly one revenue sample); on the
initial state (2000 finished, demand 500) it sells 500, records fill
rate 1 and revenue 150000, and leaves 1500 finished products. -/
theorem settlement_correct :
    (∀ s : SimState,
      (settle s).money = s.money + min s.finished_products s.demand * 300 ∧
      (settle s).finished_products =
        s.finished_products - min s.finished_products s.demand ∧
      (settle s).kpi_revenue =
        s.kpi_revenue ++ [min s.finished_products s.demand * 300]) ∧
    (∀ (ev : Option Event) (u : ℚ) (s : SimState),
      (tick ev u s).kpi_revenue.length = s.kpi_revenue.length + 1) ∧
    (min initState.finished_products initState.demand = 500 ∧
      (settle initState).kpi_otif = [1] ∧
      (settle initState).kpi_revenue = [150000] ∧
      (settle initState).finished_products = 1500) := by
  refine ⟨fun s => ⟨rfl, rfl, rfl⟩, fun ev u s => ?_, by decide,
    ?_, by decide, by decide⟩
  · show (settle (preSettle ev u s)).kpi_revenue.length = _
    rw [settle_kpi_revenue, (preSettle_kpis ev u s).2.2.2]
    simp
  · rw [settle_kpi_otif]
    norm_num [initState, min_def]

/-- C6: each tick's inventory-turnover sample is
`sold / (finished_products + 0.1)` with the finished-product quantity
taken before the settlement decrement; with sold = 500 and 2000 finished
products before settlement the sample is 500 / 2000.1 = 5000 / 20001. -/
theorem turnover_uses_pre_settlement_stock :
    (∀ s : SimState,
      (settle s).kpi_inventory_turnover = s.kpi_inventory_turnover ++
        [((min s.finished_products s.demand : Int) : ℚ) /
          ((s.finished_products : ℚ) + 1 / 10)] ∧
      (settle s).finished_products =
        s.finished_products - min s.finished_products s.demand) ∧
    (∀ (ev : Option Event) (u : ℚ) (s : SimState),
      (tick ev u s).kpi_inventory_turnover = s.kpi_inventory_turnover ++
        [((min (preSettle ev u s).finished_products
            (preSettle ev u s).demand : Int) : ℚ) /
          (((preSettle ev u s).finished_products : ℚ) + 1 / 10)]) ∧
    ((settle initState).kpi_inventory_turnover =
        [(500 : ℚ) / (2000 + 1 / 10)] ∧
      (500 : ℚ) / (2000 + 1 / 10) = 5000 / 20001) := by
  refine ⟨fun s => ⟨rfl, rfl⟩, fun ev u s => ?_, ?_, by norm_num⟩
  · show (settle (preSettle ev u s)).kpi_inventory_turnover = _
    rw [settle_kpi_turnover, (preSettle_kpis ev u s).1]
  · rw [settle_kpi_turnover]
    norm_num [initState, min_def]

/-- C7: each tick's costs sample is
`raw_materials*10 + api*50 + finished_products*200`, priced on the
tick's pre-settlement inventory (the state after snapshot, event and
demand drift — hence including every conversion executed before the
tick), and the settlement decrement is applied only afterwards; the
decision handler itself appends no costs sample. -/
theorem costs_kpi_formula :
    (∀ s : SimState,
      (settle s).kpi_costs = s.kpi_costs ++
        [s.raw_materials * 10 + s.api * 50 + s.finished_products * 200]) ∧
    (∀ (ev : Option Event) (u : ℚ) (s : SimState),
      (tick ev u s).kpi_costs = s.kpi_costs ++
        [(preSettle ev u s).raw_materials * 10 +
          (preSettle ev u s).api * 50 +
          (preSettle ev u s).finished_products * 200] ∧
      (tick ev u s).finished_products =
        (preSettle ev u s).finished_products -
          min (preSettle ev u s).finished_products (preSettle ev u s).demand) ∧
    (∀ (d : Decisions) (s : SimState),
      (executeDecisions d s).1.kpi_costs = s.kpi_costs) := by
  refine ⟨fun s => rfl, fun ev u s => ⟨?_, rfl⟩, fun d s => ?_⟩
  · show (settle (preSettle ev u s)).kpi_costs = _
    rw [settle_kpi_costs, (preSettle_kpis ev u s).2.2.1]
  · unfold executeDecisions
    dsimp only
    split <;> rfl

/-- Modelled from the spec: `advance_week(decisions)` (§4.7) has no
single entry point in the source — the dashboard exposes the "Next
Week" and "Execute Decisions" handlers separately; the spec's
orchestration runs the tick's own dynamics first (steps 1-5) and
applies the caller's decision batch last (step 6).  Both components are
the source-derived `tick` and `executeDecisions`. -/
def advance_week (ev : Option Event) (u : ℚ) (d : Decisions)
    (s : SimState) : SimState × Bool :=
  executeDecisions d (tick ev u s)

/-- C8: in `advance_week` the decision batch is applied after the
tick's event, drift and settlement; the affordability guard compares
the cost against the funds as credited by that tick's settlement
revenue, and on failure the tick's effects (steps 1-5) stand
unchanged. -/
theorem decisions_applied_after_settlement (ev : Option Event) (u : ℚ)
    (d : Decisions) (s : SimState) :
    advance_week ev u d s = executeDecisions d (tick ev u s) ∧
    (tick ev u s).money = (preSettle ev u s).money +
      min (preSettle ev u s).finished_products (preSettle ev u s).demand * 300 ∧
    ((advance_week ev u d s).2 = true ↔
      d.raw_materials_to_buy * 10 ≤ (tick ev u s).money) ∧
    ((advance_week ev u d s).2 = false → (advance_week ev u d s).1 = tick ev u s) := by
  refine ⟨rfl, rfl, ?_, ?_⟩ <;> unfold advance_week executeDecisions <;> dsimp only
  · split
    · rename_i h
      simpa using h
    · rename_i h
      simpa using h
  · split
    · simp
    · intro
      rfl

end PharmaSim
